import Mathlib

/-!
# Shallow embedding of the LeadFlow24 backend (`server.js`)

This development embeds the HTTP handlers and database operations of the
LeadFlow24 Express/SQLite backend and proves the testable properties of its
specification against them.

Modeling conventions:

* Database tables are Lean lists of row structures; each SQL statement becomes
  an explicit pure transformation of a `ServerState`.  Store-managed
  `created_at` and `updated_at` timestamps are kept only on the rows where a
  documented property observes them (leads, clients); timestamps are measured
  in whole days as `Int` values, matching the day-granularity calendar
  arithmetic (`Date.setDate`) used by the dashboard handler.
* JSON body fields arriving through `express.json()` are either absent
  (JavaScript `undefined`), `null`, or a value.  The distinction matters: the
  handlers test some fields with truthiness (`if (x)`), others with
  `x !== undefined`, and the `better-sqlite3` driver refuses to bind
  `undefined` (it throws `TypeError: SQLite3 can only bind numbers, strings,
  bigints, buffers, and null`, which the handler boundary turns into a 500
  response).  Body fields are therefore `JsStr` (string-valued fields; clients
  of this API send strings) or `JsNum` (the numeric `job_value` field).
* `uuidv4()` calls are modeled by explicit identifier parameters to each
  handler (an external source of fresh identifiers); SMTP transport outcomes
  are modeled by explicit `Bool` parameters (`true` = the transport accepted
  the message).
* JavaScript numbers are modeled as `ℚ`.  Every numeric fact proved below is
  exact in binary floating point as well (the values involved are small
  integers or agree with the double computation at one decimal digit).
-/

namespace LeadFlow

/-- Value of a string-typed JSON body field after destructuring `req.body`:
absent (`undefined`), `null`, or a string. -/
inductive JsStr where
  | absent : JsStr
  | null : JsStr
  | str : String → JsStr
deriving DecidableEq

/-- JavaScript truthiness of a `JsStr`: `undefined` and `null` are falsy, a
string is truthy iff it is non-empty. -/
def JsStr.truthy : JsStr → Bool
  | .str s => s != ""
  | _ => false

/-- The underlying string of a truthy `JsStr` (defaulting to `""`). -/
def JsStr.asString : JsStr → String
  | .str s => s
  | _ => ""

/-- Binding a `JsStr` into a nullable TEXT column: `null` stores NULL, a
string stores itself.  (`undefined` never reaches a bind in this model: the
handlers below return the 500 branch first, mirroring the driver's
`TypeError` on an `undefined` parameter.) -/
def JsStr.toColumn : JsStr → Option String
  | .str s => some s
  | _ => none

/-- Model of the JavaScript default idiom `v || d` for a string field. -/
def JsStr.orDefault (v : JsStr) (d : String) : String :=
  if v.truthy then v.asString else d

/-- True when the field carries an actual string (possibly empty) — i.e. it
is neither JavaScript `undefined` nor `null`. -/
def JsStr.isStr : JsStr → Bool
  | .str _ => true
  | _ => false

/-- Value of the numeric `job_value` JSON body field. -/
inductive JsNum where
  | absent : JsNum
  | null : JsNum
  | num : ℚ → JsNum
deriving DecidableEq

/-- Binding a `JsNum` into a nullable REAL column. -/
def JsNum.toColumn : JsNum → Option ℚ
  | .num q => some q
  | _ => none

/-- Truthiness of an optional string (a `process.env` entry or a value read
back from a nullable column): absent and `""` are falsy. -/
def optTruthy : Option String → Bool
  | some s => s != ""
  | none => false

/-- Model of `v || d` where `v` is an optional string (e.g. an environment
variable that may be unset or empty). -/
def envOr (v : Option String) (d : String) : String :=
  if optTruthy v then v.getD d else d

/-- Model of `v || null` for an optional string. -/
def jsOrNull (v : Option String) : Option String :=
  if optTruthy v then v else none

/-- ASCII case mapping of one character, as applied by JavaScript
`toLowerCase` on the ASCII range (the claims never exercise non-ASCII
case mappings). -/
def lowerChar (c : Char) : Char :=
  if c.isUpper then Char.ofNat (c.toNat + 32) else c

/-- Email normalization applied by the handlers:
`email.toLowerCase().trim()`, modeled character by character (lower-case the
string, then strip leading and trailing whitespace). -/
def normEmail (e : String) : String :=
  String.mk
    ((((e.data.map lowerChar).dropWhile Char.isWhitespace).reverse.dropWhile
      Char.isWhitespace).reverse)

/-! ## Database rows

Columns that no handler in scope reads or writes (free-text notes on trial
signups, `service_area` and friends on clients, …) are omitted; each omitted
column is constant over every operation modeled here. -/

/-- Row of `subscribers` (server.js:53-60). -/
structure Subscriber where
  id : String
  email : String
  source : String
  status : String
deriving DecidableEq

/-- Row of `trial_signups` (server.js:63-79). -/
structure TrialSignup where
  id : String
  first_name : String
  last_name : String
  business_name : String
  email : String
  phone : String
  industry : String
  city : String
  source : String
  status : String
deriving DecidableEq

/-- Row of `clients` (server.js:82-103). -/
structure Client where
  id : String
  business_name : String
  contact_name : String
  email : String
  phone : String
  industry : String
  city : String
  plan : String
  plan_price : ℚ
  status : String
  dashboard_token : Option String
  whop_membership_id : Option String
  whop_user_id : Option String
  updated_at : Int
deriving DecidableEq

/-- Row of `leads` (server.js:106-129). -/
structure Lead where
  id : String
  client_id : Option String
  capture_page : Option String
  name : String
  email : Option String
  phone : String
  service_needed : Option String
  address : Option String
  city : Option String
  postal_code : Option String
  message : Option String
  source : String
  utm_source : Option String
  utm_medium : Option String
  utm_campaign : Option String
  status : String
  contacted_at : Option String
  booked_at : Option String
  job_value : Option ℚ
  notes : Option String
  created_at : Int
  updated_at : Int
deriving DecidableEq

/-- Structured rendering of the `JSON.stringify` payload stored in the
`details` column of `lead_activity`. -/
inductive ActivityDetails where
  | createdD : JsStr → JsStr → ActivityDetails
  | statusD : JsStr → JsStr → JsNum → ActivityDetails
deriving DecidableEq

/-- Row of `lead_activity` (server.js:132-139). -/
structure ActivityRow where
  id : String
  lead_id : String
  action : String
  details : ActivityDetails
deriving DecidableEq

/-- Row of `capture_pages` (server.js:142-153). -/
structure CapturePage where
  id : String
  client_id : Option String
  slug : String
  title : String
  status : String
  views : Int
  submissions : Int
deriving DecidableEq

/-- Row of `email_log` (server.js:156-163). -/
structure EmailLogRow where
  id : String
  recipient : String
  subject : String
  template : String
  status : String
deriving DecidableEq

/-- The whole SQLite database. -/
structure ServerState where
  subscribers : List Subscriber
  trial_signups : List TrialSignup
  clients : List Client
  leads : List Lead
  lead_activity : List ActivityRow
  capture_pages : List CapturePage
  email_log : List EmailLogRow
deriving DecidableEq

/-- The environment variables the modeled handlers read. -/
structure Env where
  notification_email : Option String
  webhook_secret : Option String
  whop_webhook_secret : Option String
deriving DecidableEq

/-- Default operator address: `process.env.NOTIFICATION_EMAIL || 'luke@leadflow24.com'`. -/
def notifyAddr (env : Env) : String :=
  envOr env.notification_email "luke@leadflow24.com"

/-- Generic JSON response envelope of the ingestion handlers: `ok id` is a
200 response whose body carries `success:true` (plus the created row id when
the handler returns one); `err status msg` is an error response
`{error: msg}` with the given HTTP status. -/
inductive Resp where
  | ok : Option String → Resp
  | err : Nat → String → Resp
deriving DecidableEq

/-! ## Email service -/

/-- Embedding of `sendEmail(to, subject, html, text)` (server.js:187-209).
The SMTP transport outcome is an external input, modeled by `ok`; the `html`
and `text` arguments never reach the email log and are omitted.  On success
the function logs a `"sent"` row and returns the transport info object
(modeled `some ()`); on transport failure the `catch` block logs a
`"failed"` row and returns JavaScript `null` (modeled `none`).  Both branches
are total: the function never throws to its caller. -/
def sendEmail (logId toAddr subject : String) (ok : Bool) (s : ServerState) :
    Option Unit × ServerState :=
  if ok then
    (some (), { s with email_log := s.email_log ++
      [{ id := logId, recipient := toAddr, subject := subject, template := "custom", status := "sent" }] })
  else
    (none, { s with email_log := s.email_log ++
      [{ id := logId, recipient := toAddr, subject := subject, template := "custom", status := "failed" }] })

/-- C9: every call to `sendEmail` appends exactly one email-log row, with
status `"sent"` when the transport succeeds and `"failed"` when it fails; the
call never throws (it is total), returns `null` (`none`) on failure so the
calling handler proceeds, and touches no other table. -/
theorem sendEmail_always_logs_once (logId toAddr subject : String) (ok : Bool) (s : ServerState) :
    (sendEmail logId toAddr subject ok s).2.email_log
      = s.email_log ++ [{ id := logId, recipient := toAddr, subject := subject,
                          template := "custom",
                          status := if ok then "sent" else "failed" }]
  ∧ (sendEmail logId toAddr subject ok s).1 = (if ok then some () else none)
  ∧ (sendEmail logId toAddr subject ok s).2.subscribers = s.subscribers
  ∧ (sendEmail logId toAddr subject ok s).2.trial_signups = s.trial_signups
  ∧ (sendEmail logId toAddr subject ok s).2.clients = s.clients
  ∧ (sendEmail logId toAddr subject ok s).2.leads = s.leads
  ∧ (sendEmail logId toAddr subject ok s).2.lead_activity = s.lead_activity
  ∧ (sendEmail logId toAddr subject ok s).2.capture_pages = s.capture_pages := by
  cases ok <;> simp [sendEmail]

/-! ## POST /api/subscribe -/

/-- Request body of `POST /api/subscribe`. -/
structure SubscribeBody where
  email : JsStr
  source : JsStr
deriving DecidableEq

/-- Embedding of the `POST /api/subscribe` handler (server.js:344-369).
`if (!email)` rejects a missing/empty email with 400; otherwise the handler
runs `INSERT OR IGNORE INTO subscribers` with the lower-cased and trimmed
email (a row whose email already exists is left untouched), awaits one
internal notification email (`okN` is the transport outcome), and answers
`{success:true}`.  `subId`/`logId` are the two `uuidv4()` draws. -/
def subscribe (env : Env) (b : SubscribeBody) (subId logId : String) (okN : Bool)
    (s : ServerState) : Resp × ServerState :=
  if ¬ b.email.truthy then (.err 400 "Email required", s)
  else
    let e := normEmail b.email.asString
    let s1 :=
      if s.subscribers.any (fun r => r.email == e) then s
      else { s with subscribers := s.subscribers ++
        [{ id := subId, email := e, source := b.source.orDefault "website", status := "active" }] }
    let s2 := (sendEmail logId (notifyAddr env)
      ("[LeadFlow24] New subscriber: " ++ b.email.asString) okN s1).2
    (.ok none, s2)

/-- Number of subscriber rows carrying a given (already normalized) email. -/
def subscriberCount (s : ServerState) (e : String) : Nat :=
  s.subscribers.countP (fun r => r.email == e)

theorem subscribe_adds_row_iff_absent (env : Env) (b : SubscribeBody) (subId logId : String)
    (okN : Bool) (s : ServerState) (e : String) (he : b.email = .str e) (hne : e ≠ "") :
    (subscribe env b subId logId okN s).1 = .ok none
  ∧ subscriberCount (subscribe env b subId logId okN s).2 (normEmail e)
      = (if subscriberCount s (normEmail e) = 0 then 1 else subscriberCount s (normEmail e)) := by
  obtain ⟨be, bsrc⟩ := b
  simp only at he
  subst he
  have htruthy : (JsStr.str e).truthy = true := by
    simp [JsStr.truthy, hne]
  by_cases hmem : s.subscribers.any (fun r => r.email == normEmail e)
  · obtain ⟨r, hr, hre⟩ := List.any_eq_true.mp hmem
    have hex : ∃ x ∈ s.subscribers, x.email = normEmail e :=
      ⟨r, hr, by simpa using hre⟩
    have hpos : 0 < subscriberCount s (normEmail e) :=
      List.countP_pos_iff.mpr ⟨r, hr, hre⟩
    refine ⟨by cases okN <;> simp [subscribe, htruthy, sendEmail], ?_⟩
    have hsame : subscriberCount
        (subscribe env ⟨.str e, bsrc⟩ subId logId okN s).2 (normEmail e)
        = subscriberCount s (normEmail e) := by
      cases okN <;>
        simp [subscribe, subscriberCount, htruthy, JsStr.asString, hex, sendEmail]
    rw [hsame, if_neg (by omega)]
  · have hnex : ¬ ∃ x ∈ s.subscribers, x.email = normEmail e := by
      rintro ⟨r, hr, hre⟩
      exact hmem (List.any_eq_true.mpr ⟨r, hr, by simpa using hre⟩)
    have hzero : subscriberCount s (normEmail e) = 0 := by
      rw [subscriberCount, List.countP_eq_zero]
      intro r hr hre
      exact hnex ⟨r, hr, by simpa using hre⟩
    refine ⟨by cases okN <;> simp [subscribe, htruthy, sendEmail], ?_⟩
    have hstep : subscriberCount
        (subscribe env ⟨.str e, bsrc⟩ subId logId okN s).2 (normEmail e)
        = subscriberCount s (normEmail e) + 1 := by
      cases okN <;>
        simp [subscribe, subscriberCount, htruthy, hnex, sendEmail,
          List.countP_append, JsStr.asString]
    rw [hstep, hzero, if_pos rfl]

/-- C5: subscribe is idempotent.  For every email address (a non-empty
string), submitting two subscribe requests with that same email leaves
exactly one subscriber row carrying its normalized (lower-cased, trimmed)
form — given the store's uniqueness invariant that at most one such row
existed before — and both requests answer with the 200 success envelope. -/
theorem subscribe_idempotent (env : Env) (b : SubscribeBody)
    (id1 log1 id2 log2 : String) (ok1 ok2 : Bool) (s : ServerState) (e : String)
    (he : b.email = .str e) (hne : e ≠ "")
    (huniq : subscriberCount s (normEmail e) ≤ 1) :
    (subscribe env b id1 log1 ok1 s).1 = .ok none
  ∧ (subscribe env b id2 log2 ok2 (subscribe env b id1 log1 ok1 s).2).1 = .ok none
  ∧ subscriberCount (subscribe env b id2 log2 ok2 (subscribe env b id1 log1 ok1 s).2).2
      (normEmail e) = 1 := by
  obtain ⟨h1, hc1⟩ := subscribe_adds_row_iff_absent env b id1 log1 ok1 s e he hne
  obtain ⟨h2, hc2⟩ := subscribe_adds_row_iff_absent env b id2 log2 ok2
    (subscribe env b id1 log1 ok1 s).2 e he hne
  refine ⟨h1, h2, ?_⟩
  rw [hc2, hc1]
  rcases Nat.lt_or_ge (subscriberCount s (normEmail e)) 1 with h | h
  · simp [Nat.lt_one_iff.mp h]
  · have : subscriberCount s (normEmail e) = 1 := le_antisymm huniq h
    simp [this]

/-- Witness for C5 at a concrete input: the email `" A@B.c "`, an empty
store, both transports succeeding. -/
theorem subscribe_idempotent_witness :
    (subscribe ⟨none, none, none⟩ ⟨.str " A@B.c ", .absent⟩ "u1" "u2" true
        ⟨[], [], [], [], [], [], []⟩).1 = .ok none
  ∧ (subscribe ⟨none, none, none⟩ ⟨.str " A@B.c ", .absent⟩ "u3" "u4" true
      (subscribe ⟨none, none, none⟩ ⟨.str " A@B.c ", .absent⟩ "u1" "u2" true
        ⟨[], [], [], [], [], [], []⟩).2).1 = .ok none
  ∧ subscriberCount (subscribe ⟨none, none, none⟩ ⟨.str " A@B.c ", .absent⟩ "u3" "u4" true
      (subscribe ⟨none, none, none⟩ ⟨.str " A@B.c ", .absent⟩ "u1" "u2" true
        ⟨[], [], [], [], [], [], []⟩).2).2 (normEmail " A@B.c ") = 1 :=
  subscribe_idempotent ⟨none, none, none⟩ ⟨.str " A@B.c ", .absent⟩ "u1" "u2" "u3" "u4"
    true true ⟨[], [], [], [], [], [], []⟩ " A@B.c " rfl (by decide) (by decide)

/-! ## POST /api/trial-signup -/

/-- Request body of `POST /api/trial-signup`. -/
structure TrialBody where
  firstName : JsStr
  lastName : JsStr
  businessName : JsStr
  email : JsStr
  phone : JsStr
  industry : JsStr
  city : JsStr
  source : JsStr
deriving DecidableEq

/-- Embedding of the `POST /api/trial-signup` handler (server.js:373-418),
in the order the statements execute:

1. `if (!firstName || !email || !phone)` answers 400;
2. `stmt.run(...)` binds firstName, lastName, businessName, the normalized
   email, phone, industry, city and `source || 'free_trial_page'`; the
   columns last_name, business_name, industry and city are `TEXT NOT NULL`,
   and a body value of either JavaScript kind that is not a string fails
   before the duplicate check: an `undefined` bind makes `better-sqlite3`
   throw a `TypeError` before the statement executes, and a `null` bound to
   a NOT NULL column makes SQLite raise its NOT NULL constraint error, which
   it reports before the UNIQUE error when both are violated; neither
   message contains `'UNIQUE'`, so the catch block answers 500 with nothing
   written;
3. the UNIQUE constraint on `trial_signups.email` rejects a duplicate email
   with an error whose message contains `'UNIQUE'`, so the catch block
   answers 409 — nothing has been written at that point;
4. otherwise the row is inserted, a subscriber row is inserted ignoring
   duplicates, a welcome email goes to the signer and an internal
   notification to the operator (`okW`/`okI` transport outcomes), and the
   handler answers `{success:true, id}`. -/
def trialSignup (env : Env) (b : TrialBody) (trialId subId logW logI : String)
    (okW okI : Bool) (s : ServerState) : Resp × ServerState :=
  if ¬ (b.firstName.truthy ∧ b.email.truthy ∧ b.phone.truthy) then
    (.err 400 "First name, email, and phone required", s)
  else if ¬ (b.lastName.isStr ∧ b.businessName.isStr ∧ b.industry.isStr
      ∧ b.city.isStr) then
    (.err 500 "Signup failed", s)
  else if s.trial_signups.any (fun r => r.email == normEmail b.email.asString) then
    (.err 409 "Email already registered for a trial", s)
  else
    let e := normEmail b.email.asString
    let row : TrialSignup :=
      { id := trialId, first_name := b.firstName.asString, last_name := b.lastName.asString,
        business_name := b.businessName.asString, email := e, phone := b.phone.asString,
        industry := b.industry.asString, city := b.city.asString,
        source := b.source.orDefault "free_trial_page", status := "new" }
    let s1 : ServerState := { s with trial_signups := s.trial_signups ++ [row] }
    let s2 : ServerState :=
      if s1.subscribers.any (fun r => r.email == e) then s1
      else { s1 with subscribers := s1.subscribers ++
        [{ id := subId, email := e, source := "trial_signup", status := "active" }] }
    let s3 := (sendEmail logW b.email.asString
      ("Welcome to LeadFlow24, " ++ b.firstName.asString ++ "! Your trial starts now.")
      okW s2).2
    let s4 := (sendEmail logI (notifyAddr env)
      ("NEW TRIAL SIGNUP: " ++ b.businessName.asString) okI s3).2
    (.ok (some trialId), s4)

/-- C4 (amended): a trial-signup request that passes field validation
(non-empty firstName, email and phone) and supplies lastName, businessName,
industry and city as strings (neither absent nor null, so neither the bind
`TypeError` nor the NOT NULL constraint fires ahead of the duplicate
check), whose normalized email already has a `trial_signups` row, answers
409 and leaves the entire store — in particular the `trial_signups` table —
unchanged. -/
theorem trial_duplicate_email_conflict (env : Env) (b : TrialBody)
    (trialId subId logW logI : String) (okW okI : Bool) (s : ServerState)
    (hf : b.firstName.truthy) (he : b.email.truthy) (hp : b.phone.truthy)
    (hl : b.lastName.isStr) (hb : b.businessName.isStr)
    (hi : b.industry.isStr) (hc : b.city.isStr)
    (hdup : s.trial_signups.any (fun r => r.email == normEmail b.email.asString)) :
    (trialSignup env b trialId subId logW logI okW okI s).1
      = .err 409 "Email already registered for a trial"
  ∧ (trialSignup env b trialId subId logW logI okW okI s).2 = s := by
  obtain ⟨r, hr, hre⟩ := List.any_eq_true.mp hdup
  have hex : ∃ x ∈ s.trial_signups, x.email = normEmail b.email.asString :=
    ⟨r, hr, by simpa using hre⟩
  constructor <;> simp [trialSignup, hf, he, hp, hl, hb, hi, hc, hex]

/-- Witness for C4's amended theorem at a concrete input: a store already
holding a trial signup for `dup@x.com` and a fully populated request reusing
that email. -/
theorem trial_duplicate_email_conflict_witness :
    (trialSignup ⟨none, none, none⟩
        ⟨.str "Ann", .str "Lee", .str "Acme", .str "dup@x.com", .str "780",
         .str "hvac", .str "Edmonton", .absent⟩ "t2" "s2" "l1" "l2" true true
        ⟨[], [⟨"t1", "Bo", "Ng", "Oldco", "dup@x.com", "555", "roofing", "Leduc",
              "free_trial_page", "new"⟩], [], [], [], [], []⟩).1
      = .err 409 "Email already registered for a trial"
  ∧ (trialSignup ⟨none, none, none⟩
        ⟨.str "Ann", .str "Lee", .str "Acme", .str "dup@x.com", .str "780",
         .str "hvac", .str "Edmonton", .absent⟩ "t2" "s2" "l1" "l2" true true
        ⟨[], [⟨"t1", "Bo", "Ng", "Oldco", "dup@x.com", "555", "roofing", "Leduc",
              "free_trial_page", "new"⟩], [], [], [], [], []⟩).2
      = ⟨[], [⟨"t1", "Bo", "Ng", "Oldco", "dup@x.com", "555", "roofing", "Leduc",
              "free_trial_page", "new"⟩], [], [], [], [], []⟩ :=
  trial_duplicate_email_conflict ⟨none, none, none⟩
    ⟨.str "Ann", .str "Lee", .str "Acme", .str "dup@x.com", .str "780",
     .str "hvac", .str "Edmonton", .absent⟩ "t2" "s2" "l1" "l2" true true
    ⟨[], [⟨"t1", "Bo", "Ng", "Oldco", "dup@x.com", "555", "roofing", "Leduc",
          "free_trial_page", "new"⟩], [], [], [], [], []⟩
    (by decide) (by decide) (by decide) (by decide) (by decide) (by decide) (by decide)
    (by decide)

/-- C4 counterexample: the claim quantifies over every trial-signup request
whose email already has a row, but field validation runs before the
uniqueness check — a duplicate-email request with a missing first name is
answered 400, not 409. -/
theorem trial_duplicate_email_not_always_409 :
    (trialSignup ⟨none, none, none⟩
        ⟨.absent, .str "Lee", .str "Acme", .str "dup@x.com", .str "780",
         .str "hvac", .str "Edmonton", .absent⟩ "t2" "s2" "l1" "l2" true true
        ⟨[], [⟨"t1", "Bo", "Ng", "Oldco", "dup@x.com", "555", "roofing", "Leduc",
              "free_trial_page", "new"⟩], [], [], [], [], []⟩).1
      = .err 400 "First name, email, and phone required"
  ∧ (trialSignup ⟨none, none, none⟩
        ⟨.absent, .str "Lee", .str "Acme", .str "dup@x.com", .str "780",
         .str "hvac", .str "Edmonton", .absent⟩ "t2" "s2" "l1" "l2" true true
        ⟨[], [⟨"t1", "Bo", "Ng", "Oldco", "dup@x.com", "555", "roofing", "Leduc",
              "free_trial_page", "new"⟩], [], [], [], [], []⟩).1
      ≠ .err 409 "Email already registered for a trial" := by
  constructor <;> decide

/-! ## POST /api/leads -/

/-- Request body of `POST /api/leads`. -/
structure LeadBody where
  name : JsStr
  email : JsStr
  phone : JsStr
  service_needed : JsStr
  address : JsStr
  city : JsStr
  postal_code : JsStr
  message : JsStr
  source : JsStr
  utm_source : JsStr
  utm_medium : JsStr
  utm_campaign : JsStr
  capture_page : JsStr
deriving DecidableEq

/-- True when some body field that `stmt.run` binds directly — without a
`|| default` rewrite — is absent (`undefined`): `better-sqlite3` then throws
a `TypeError` before the INSERT executes.  `name` and `phone` are validated
truthy earlier and `source` is defaulted, so the remaining ten bound fields
are the ones that can be `undefined` at the bind. -/
def LeadBody.hasUndefBind (b : LeadBody) : Bool :=
  b.email = .absent ∨ b.service_needed = .absent ∨ b.address = .absent
    ∨ b.city = .absent ∨ b.postal_code = .absent ∨ b.message = .absent
    ∨ b.utm_source = .absent ∨ b.utm_medium = .absent ∨ b.utm_campaign = .absent
    ∨ b.capture_page = .absent

/-- Embedding of the `POST /api/leads` handler (server.js:422-485), in
execution order:

1. `if (!name || !phone)` answers 400;
2. if `capture_page` is truthy, the capture-page slug is looked up and a
   match supplies `clientId` (which may itself be NULL);
3. `stmt.run(...)` inserts the lead — binding any `undefined` body field
   throws a `TypeError` which the catch block turns into a 500 answer with
   nothing written (`hasUndefBind`);
4. a truthy `capture_page` has its page's submission counter incremented
   (an unknown slug updates zero rows);
5. one `lead_activity` row with action `"created"` is appended;
6. if `clientId` is truthy and that client exists, the client is emailed
   (`okC`); the operator is always emailed (`okO`);
7. the handler answers `{success:true, id}`. -/
def captureLead (env : Env) (b : LeadBody) (leadId actId logC logO : String)
    (okC okO : Bool) (now : Int) (s : ServerState) : Resp × ServerState :=
  if ¬ (b.name.truthy ∧ b.phone.truthy) then
    (.err 400 "Name and phone required", s)
  else
    let clientId : Option String :=
      if b.capture_page.truthy then
        match s.capture_pages.find? (fun p => p.slug == b.capture_page.asString) with
        | some page => page.client_id
        | none => none
      else none
    if b.hasUndefBind then (.err 500 "Lead capture failed", s)
    else
      let row : Lead :=
        { id := leadId, client_id := clientId, capture_page := b.capture_page.toColumn,
          name := b.name.asString, email := b.email.toColumn, phone := b.phone.asString,
          service_needed := b.service_needed.toColumn, address := b.address.toColumn,
          city := b.city.toColumn, postal_code := b.postal_code.toColumn,
          message := b.message.toColumn, source := b.source.orDefault "facebook",
          utm_source := b.utm_source.toColumn, utm_medium := b.utm_medium.toColumn,
          utm_campaign := b.utm_campaign.toColumn, status := "new",
          contacted_at := none, booked_at := none, job_value := none, notes := none,
          created_at := now, updated_at := now }
      let s1 : ServerState := { s with leads := s.leads ++ [row] }
      let s2 : ServerState :=
        if b.capture_page.truthy then
          { s1 with capture_pages := s1.capture_pages.map (fun p =>
              if p.slug == b.capture_page.asString then
                { p with submissions := p.submissions + 1 }
              else p) }
        else s1
      let s3 : ServerState := { s2 with lead_activity := s2.lead_activity ++
        [{ id := actId, lead_id := leadId, action := "created",
           details := .createdD b.source b.capture_page }] }
      let s4 : ServerState :=
        match clientId with
        | some cid =>
          if cid != "" then
            match s3.clients.find? (fun c => c.id == cid) with
            | some client =>
              (sendEmail logC client.email
                ("New Lead: " ++ b.name.asString ++ " needs "
                  ++ b.service_needed.orDefault "Service request") okC s3).2
            | none => s3
          else s3
        | none => s3
      let s5 : ServerState := (sendEmail logO (notifyAddr env)
        ("NEW LEAD: " ++ b.name.asString) okO s4).2
      (.ok (some leadId), s5)

/-- C2 (code bug): the claim says a lead-capture request with a non-empty
name and phone and an absent `capture_page` creates one Lead with a null
client association and answers the success envelope.  On the code, a body
that omits `capture_page` (or any other optional field) reaches `stmt.run`
with an `undefined` bind parameter, `better-sqlite3` throws a `TypeError`,
and the catch boundary answers 500 `{error:"Lead capture failed"}` with no
Lead row written — exercised here on the minimal body
`{name:"Sarah", phone:"780-555-0201"}` against an empty store. -/
theorem capture_lead_minimal_body_is_500 :
    (captureLead ⟨none, none, none⟩
        ⟨.str "Sarah", .absent, .str "780-555-0201", .absent, .absent, .absent, .absent,
         .absent, .absent, .absent, .absent, .absent, .absent⟩
        "L1" "A1" "g1" "g2" true true 0 ⟨[], [], [], [], [], [], []⟩).1
      = .err 500 "Lead capture failed"
  ∧ (captureLead ⟨none, none, none⟩
        ⟨.str "Sarah", .absent, .str "780-555-0201", .absent, .absent, .absent, .absent,
         .absent, .absent, .absent, .absent, .absent, .absent⟩
        "L1" "A1" "g1" "g2" true true 0 ⟨[], [], [], [], [], [], []⟩).2.leads
      = [] := by
  constructor <;> decide

/-! ## PATCH /api/leads/:id -/

/-- Request body of `PATCH /api/leads/:id`. -/
structure PatchBody where
  status : JsStr
  notes : JsStr
  job_value : JsNum
  contacted_at : JsStr
  booked_at : JsStr
deriving DecidableEq

/-- The dynamic UPDATE built by the handler (server.js:495-505), applied to
one lead row: `status`, `contacted_at` and `booked_at` are set when the body
value is truthy (`if (status)`, `if (contacted_at)`, `if (booked_at)`);
`notes` and `job_value` are set when the body value is not `undefined`
(`!== undefined`, so an explicit `null` is stored); `updated_at` is always
touched. -/
def applyPatch (b : PatchBody) (now : Int) (l : Lead) : Lead :=
  { l with
    status := if b.status.truthy then b.status.asString else l.status,
    notes := if b.notes ≠ .absent then b.notes.toColumn else l.notes,
    job_value := if b.job_value ≠ .absent then b.job_value.toColumn else l.job_value,
    contacted_at := if b.contacted_at.truthy then some b.contacted_at.asString
      else l.contacted_at,
    booked_at := if b.booked_at.truthy then some b.booked_at.asString else l.booked_at,
    updated_at := now }

/-- Embedding of the `PATCH /api/leads/:id` handler (server.js:489-517): an
unknown id answers 404; otherwise `UPDATE leads SET … WHERE id = ?` applies
`applyPatch` to every row with that id, one `lead_activity` row with action
`"status_updated"` is appended, and the handler answers `{success:true}`. -/
def patchLead (leadId : String) (b : PatchBody) (actId : String) (now : Int)
    (s : ServerState) : Resp × ServerState :=
  match s.leads.find? (fun l => l.id == leadId) with
  | none => (.err 404 "Lead not found", s)
  | some _ =>
    (.ok none, { s with
      leads := s.leads.map (fun l => if l.id == leadId then applyPatch b now l else l),
      lead_activity := s.lead_activity ++
        [{ id := actId, lead_id := leadId, action := "status_updated",
           details := .statusD b.status b.notes b.job_value }] })

/-- Field-by-field description of `applyPatch`: the supplied-and-applicable
fields take the body value, everything else keeps its prior value, and the
update timestamp is always written. -/
theorem applyPatch_fields (b : PatchBody) (now : Int) (l : Lead) :
    (applyPatch b now l).updated_at = now
  ∧ (b.status.truthy → (applyPatch b now l).status = b.status.asString)
  ∧ (¬ b.status.truthy → (applyPatch b now l).status = l.status)
  ∧ (b.notes ≠ .absent → (applyPatch b now l).notes = b.notes.toColumn)
  ∧ (b.notes = .absent → (applyPatch b now l).notes = l.notes)
  ∧ (b.job_value ≠ .absent → (applyPatch b now l).job_value = b.job_value.toColumn)
  ∧ (b.job_value = .absent → (applyPatch b now l).job_value = l.job_value)
  ∧ (b.contacted_at.truthy →
      (applyPatch b now l).contacted_at = some b.contacted_at.asString)
  ∧ (¬ b.contacted_at.truthy → (applyPatch b now l).contacted_at = l.contacted_at)
  ∧ (b.booked_at.truthy → (applyPatch b now l).booked_at = some b.booked_at.asString)
  ∧ (¬ b.booked_at.truthy → (applyPatch b now l).booked_at = l.booked_at)
  ∧ (applyPatch b now l).id = l.id
  ∧ (applyPatch b now l).client_id = l.client_id
  ∧ (applyPatch b now l).capture_page = l.capture_page
  ∧ (applyPatch b now l).name = l.name
  ∧ (applyPatch b now l).email = l.email
  ∧ (applyPatch b now l).phone = l.phone
  ∧ (applyPatch b now l).service_needed = l.service_needed
  ∧ (applyPatch b now l).address = l.address
  ∧ (applyPatch b now l).city = l.city
  ∧ (applyPatch b now l).postal_code = l.postal_code
  ∧ (applyPatch b now l).message = l.message
  ∧ (applyPatch b now l).source = l.source
  ∧ (applyPatch b now l).utm_source = l.utm_source
  ∧ (applyPatch b now l).utm_medium = l.utm_medium
  ∧ (applyPatch b now l).utm_campaign = l.utm_campaign
  ∧ (applyPatch b now l).created_at = l.created_at := by
  and_intros <;> (intros; simp [applyPatch, *])

/-- C3 (amended): a status update on an existing lead answers the success
envelope, applies `applyPatch` to exactly the rows carrying the requested id
— writing the supplied fields, except that `status`, `contacted_at` and
`booked_at` are written only when supplied truthy (non-empty), while
supplied `notes` and `job_value` are written even when `null` — always
touches the update timestamp, leaves every other row and every omitted field
at its prior value, and appends exactly one `lead_activity` row with action
`"status_updated"`. -/
theorem patch_lead_updates_only_supplied (leadId : String) (b : PatchBody)
    (actId : String) (now : Int) (s : ServerState)
    (hex : (s.leads.find? (fun l => l.id == leadId)).isSome) :
    (patchLead leadId b actId now s).1 = .ok none
  ∧ List.Forall₂ (fun l l2 =>
      (l.id ≠ leadId → l2 = l) ∧ (l.id = leadId → l2 = applyPatch b now l))
      s.leads (patchLead leadId b actId now s).2.leads
  ∧ (patchLead leadId b actId now s).2.lead_activity
      = s.lead_activity ++
        [{ id := actId, lead_id := leadId, action := "status_updated",
           details := .statusD b.status b.notes b.job_value }]
  ∧ (patchLead leadId b actId now s).2.subscribers = s.subscribers
  ∧ (patchLead leadId b actId now s).2.trial_signups = s.trial_signups
  ∧ (patchLead leadId b actId now s).2.clients = s.clients
  ∧ (patchLead leadId b actId now s).2.capture_pages = s.capture_pages
  ∧ (patchLead leadId b actId now s).2.email_log = s.email_log := by
  obtain ⟨l0, hl0⟩ := Option.isSome_iff_exists.mp hex
  refine ⟨by simp [patchLead, hl0], ?_, by simp [patchLead, hl0],
    by simp [patchLead, hl0], by simp [patchLead, hl0], by simp [patchLead, hl0],
    by simp [patchLead, hl0], by simp [patchLead, hl0]⟩
  have : (patchLead leadId b actId now s).2.leads
      = s.leads.map (fun l => if l.id == leadId then applyPatch b now l else l) := by
    simp [patchLead, hl0]
  rw [this, List.forall₂_map_right_iff, List.forall₂_same]
  intro x _
  refine ⟨fun hne => ?_, fun heq => ?_⟩
  · simp [hne]
  · simp [heq]

/-- Witness for C3's amended theorem at a concrete input: a store with two
leads, a body supplying a new status and a job value. -/
theorem patch_lead_updates_only_supplied_witness :
    (patchLead "L1" ⟨.str "booked", .absent, .num 950, .absent, .absent⟩ "A9" 40
        ⟨[], [], [],
         [{ id := "L1", client_id := none, capture_page := none, name := "Sarah",
            email := none, phone := "780", service_needed := none, address := none,
            city := none, postal_code := none, message := none, source := "facebook",
            utm_source := none, utm_medium := none, utm_campaign := none,
            status := "new", contacted_at := none, booked_at := none,
            job_value := none, notes := none, created_at := 3, updated_at := 3 },
          { id := "L2", client_id := none, capture_page := none, name := "Dave",
            email := none, phone := "781", service_needed := none, address := none,
            city := none, postal_code := none, message := none, source := "facebook",
            utm_source := none, utm_medium := none, utm_campaign := none,
            status := "new", contacted_at := none, booked_at := none,
            job_value := none, notes := none, created_at := 4, updated_at := 4 }],
         [], [], []⟩).1 = .ok none
  ∧ List.Forall₂ (fun l l2 =>
      (l.id ≠ "L1" → l2 = l)
      ∧ (l.id = "L1" →
          l2 = applyPatch ⟨.str "booked", .absent, .num 950, .absent, .absent⟩ 40 l))
      [{ id := "L1", client_id := none, capture_page := none, name := "Sarah",
         email := none, phone := "780", service_needed := none, address := none,
         city := none, postal_code := none, message := none, source := "facebook",
         utm_source := none, utm_medium := none, utm_campaign := none,
         status := "new", contacted_at := none, booked_at := none,
         job_value := none, notes := none, created_at := 3, updated_at := 3 },
       { id := "L2", client_id := none, capture_page := none, name := "Dave",
         email := none, phone := "781", service_needed := none, address := none,
         city := none, postal_code := none, message := none, source := "facebook",
         utm_source := none, utm_medium := none, utm_campaign := none,
         status := "new", contacted_at := none, booked_at := none,
         job_value := none, notes := none, created_at := 4, updated_at := 4 }]
      (patchLead "L1" ⟨.str "booked", .absent, .num 950, .absent, .absent⟩ "A9" 40
        ⟨[], [], [],
         [{ id := "L1", client_id := none, capture_page := none, name := "Sarah",
            email := none, phone := "780", service_needed := none, address := none,
            city := none, postal_code := none, message := none, source := "facebook",
            utm_source := none, utm_medium := none, utm_campaign := none,
            status := "new", contacted_at := none, booked_at := none,
            job_value := none, notes := none, created_at := 3, updated_at := 3 },
          { id := "L2", client_id := none, capture_page := none, name := "Dave",
            email := none, phone := "781", service_needed := none, address := none,
            city := none, postal_code := none, message := none, source := "facebook",
            utm_source := none, utm_medium := none, utm_campaign := none,
            status := "new", contacted_at := none, booked_at := none,
            job_value := none, notes := none, created_at := 4, updated_at := 4 }],
         [], [], []⟩).2.leads :=
  let st : ServerState :=
    ⟨[], [], [],
     [{ id := "L1", client_id := none, capture_page := none, name := "Sarah",
        email := none, phone := "780", service_needed := none, address := none,
        city := none, postal_code := none, message := none, source := "facebook",
        utm_source := none, utm_medium := none, utm_campaign := none,
        status := "new", contacted_at := none, booked_at := none,
        job_value := none, notes := none, created_at := 3, updated_at := 3 },
      { id := "L2", client_id := none, capture_page := none, name := "Dave",
        email := none, phone := "781", service_needed := none, address := none,
        city := none, postal_code := none, message := none, source := "facebook",
        utm_source := none, utm_medium := none, utm_campaign := none,
        status := "new", contacted_at := none, booked_at := none,
        job_value := none, notes := none, created_at := 4, updated_at := 4 }],
     [], [], []⟩
  have h := patch_lead_updates_only_supplied "L1"
    ⟨.str "booked", .absent, .num 950, .absent, .absent⟩ "A9" 40 st (by decide)
  ⟨h.1, h.2.1⟩

/-- C3 counterexample: the claim says the update writes exactly the fields
supplied in the body, but a supplied empty-string `status` is falsy and the
handler's `if (status)` skips it — on a lead whose status is `"new"`, a body
supplying `status: ""` leaves the status `"new"` instead of writing `""`. -/
theorem patch_lead_ignores_falsy_status :
    ((patchLead "L1" ⟨.str "", .absent, .absent, .absent, .absent⟩ "A9" 40
        ⟨[], [], [],
         [{ id := "L1", client_id := none, capture_page := none, name := "Sarah",
            email := none, phone := "780", service_needed := none, address := none,
            city := none, postal_code := none, message := none, source := "facebook",
            utm_source := none, utm_medium := none, utm_campaign := none,
            status := "new", contacted_at := none, booked_at := none,
            job_value := none, notes := none, created_at := 3, updated_at := 3 }],
         [], [], []⟩).2.leads.map Lead.status) = ["new"]
  ∧ (["new"] : List String) ≠ [""] := by
  constructor <;> decide

/-! ## GET /api/dashboard/:token -/

/-- A JSON field that carries either a number or a string: `closeRate` and
`costPerLead` are the string produced by `toFixed` when the client has
leads, and the number `0` otherwise. -/
inductive NumOrStr where
  | num : ℚ → NumOrStr
  | str : String → NumOrStr
deriving DecidableEq

/-- Model of JavaScript `x.toFixed(1)` for the nonnegative rational values
the dashboard produces: round half away from zero at one decimal digit,
i.e. the digit string of `⌊10x + 1/2⌋` split before its last digit.  (At
every value proved about below, the binary-double computation JavaScript
performs yields the same digit string.) -/
def toFixed1 (q : ℚ) : String :=
  let n : Nat := ((20 * q.num + (q.den : Int)).fdiv (2 * (q.den : Int))).toNat
  toString (n / 10) ++ "." ++ toString (n % 10)

/-- Model of JavaScript `x.toFixed(0)` for nonnegative rationals: the digit
string of `⌊x + 1/2⌋`. -/
def toFixed0 (q : ℚ) : String :=
  toString (((2 * q.num + (q.den : Int)).fdiv (2 * (q.den : Int))).toNat)

/-- The leads the dashboard handler loads:
`SELECT * FROM leads WHERE client_id = ?` (server.js:528).  The source
orders the rows by `created_at DESC`; that permutation is observed only by
the `recentLeads` projection, which no documented property reads, and every
count, sum and histogram below is permutation-invariant, so the sort is
omitted. -/
def clientLeadsOf (s : ServerState) (cid : String) : List Lead :=
  s.leads.filter (fun l => l.client_id == some cid)

/-- Label of the loop iteration `i` of the weekly breakdown:
`` `W${4 - i}` `` (server.js:548). -/
def weekLabel (i : Int) : String :=
  "W" ++ toString (4 - i)

/-- Number of leads falling in iteration `i`'s window (server.js:540-547):
`weekStart = now - i*7 days`, `weekEnd = weekStart + 7 days`, counting leads
with `weekStart ≤ created_at < weekEnd`.  Note the last iteration (`i = 0`)
spans `[now, now + 7)`: the four windows cover `[now - 21, now + 7)`, not
the 28 days preceding `now`. -/
def windowCount (now i : Int) (leads : List Lead) : Nat :=
  (leads.filter (fun l =>
    decide (now - i * 7 ≤ l.created_at ∧ l.created_at < now - i * 7 + 7))).length

/-- The weekly breakdown loop (server.js:538-549): `for (let i = 3; i >= 0; i--)`
pushes `{week: W${4-i}, count}`. -/
def weeklyLeadsCalc (now : Int) (leads : List Lead) : List (String × Nat) :=
  ([3, 2, 1, 0] : List Int).map (fun i => (weekLabel i, windowCount now i leads))

/-- The `stats` block of the dashboard response (server.js:529-534, 558-566). -/
structure DashStats where
  totalLeads : Nat
  newLeads : Nat
  contactedLeads : Nat
  bookedLeads : Nat
  totalRevenue : ℚ
  closeRate : NumOrStr
  costPerLead : NumOrStr
deriving DecidableEq

/-- The parts of the dashboard response body the documented properties
observe; the `client` echo block and the `recentLeads` projection carry no
aggregate and are omitted. -/
structure DashResp where
  stats : DashStats
  weeklyLeads : List (String × Nat)
deriving DecidableEq

/-- Embedding of the `GET /api/dashboard/:token` handler
(server.js:523-583): resolve the client by dashboard token (`none` models
the 404 answer), load its leads, and aggregate.
`closeRate = totalLeads > 0 ? ((bookedLeads/totalLeads)*100).toFixed(1) : 0`
and `costPerLead = totalLeads > 0 ? (plan_price/totalLeads).toFixed(0) : 0`. -/
def getDashboard (token : String) (now : Int) (s : ServerState) : Option DashResp :=
  match s.clients.find? (fun c => c.dashboard_token == some token) with
  | none => none
  | some client =>
    let leads := clientLeadsOf s client.id
    let totalLeads := leads.length
    let newLeads := (leads.filter (fun l => l.status == "new")).length
    let contactedLeads := (leads.filter (fun l => l.status == "contacted")).length
    let bookedLeads := (leads.filter (fun l => l.status == "booked")).length
    let totalRevenue := leads.foldl (fun sum l => sum + l.job_value.getD 0) 0
    let closeRate : NumOrStr :=
      if 0 < totalLeads then
        .str (toFixed1 ((bookedLeads : ℚ) / (totalLeads : ℚ) * 100))
      else .num 0
    let costPerLead : NumOrStr :=
      if 0 < totalLeads then .str (toFixed0 (client.plan_price / (totalLeads : ℚ)))
      else .num 0
    some { stats := { totalLeads := totalLeads, newLeads := newLeads,
                      contactedLeads := contactedLeads, bookedLeads := bookedLeads,
                      totalRevenue := totalRevenue, closeRate := closeRate,
                      costPerLead := costPerLead },
           weeklyLeads := weeklyLeadsCalc now leads }

/-- The four windows of the weekly breakdown partition `[now - 21, now + 7)`:
when every lead of the list was created inside that span, the four window
counts sum to the list's length. -/
theorem windowCount_cons (now i : Int) (x : Lead) (xs : List Lead) :
    windowCount now i (x :: xs)
      = (if now - i * 7 ≤ x.created_at ∧ x.created_at < now - i * 7 + 7 then 1 else 0)
        + windowCount now i xs := by
  simp only [windowCount, List.filter_cons, decide_eq_true_eq]
  split_ifs with hw
  · simp [Nat.add_comm]
  · simp

theorem window_counts_partition (now : Int) (leads : List Lead)
    (h : ∀ l ∈ leads, now - 21 ≤ l.created_at ∧ l.created_at < now + 7) :
    windowCount now 3 leads + windowCount now 2 leads + windowCount now 1 leads
      + windowCount now 0 leads = leads.length := by
  induction leads with
  | nil => simp [windowCount]
  | cons x xs ih =>
    have hx := h x (List.mem_cons_self x xs)
    have ihh := ih (fun l hl => h l (List.mem_cons_of_mem x hl))
    rw [windowCount_cons, windowCount_cons, windowCount_cons, windowCount_cons,
      List.length_cons]
    split_ifs <;> omega

/-- C1 (amended): for every client resolved by dashboard token, the
response's `weeklyLeads` has exactly 4 entries labeled W1..W4 in that order
(oldest window first) and `totalLeads` is the client's lead count; the four
windows are the consecutive 7-day windows covering `[now - 21, now + 7)` —
the last window *begins* at the current time rather than the windows ending
at it — and the bucket counts sum to the client's total lead count whenever
every lead of the client was created inside `[now - 21, now + 7)` (not the
28 days preceding `now`, as the original claim states). -/
theorem dashboard_weekly_histogram (token : String) (now : Int) (s : ServerState)
    (client : Client)
    (hc : s.clients.find? (fun c => c.dashboard_token == some token) = some client) :
    (getDashboard token now s).map (fun r => r.weeklyLeads.map Prod.fst)
      = some ["W1", "W2", "W3", "W4"]
  ∧ (getDashboard token now s).map (fun r => r.stats.totalLeads)
      = some (clientLeadsOf s client.id).length
  ∧ ((∀ l ∈ clientLeadsOf s client.id,
        now - 21 ≤ l.created_at ∧ l.created_at < now + 7) →
      (getDashboard token now s).map (fun r => (r.weeklyLeads.map Prod.snd).sum)
        = some (clientLeadsOf s client.id).length) := by
  have hW1 : weekLabel 3 = "W1" := by decide
  have hW2 : weekLabel 2 = "W2" := by decide
  have hW3 : weekLabel 1 = "W3" := by decide
  have hW4 : weekLabel 0 = "W4" := by decide
  refine ⟨?_, ?_, fun h => ?_⟩
  · simp [getDashboard, hc, weeklyLeadsCalc, hW1, hW2, hW3, hW4]
  · simp [getDashboard, hc]
  · have hp := window_counts_partition now (clientLeadsOf s client.id) h
    simp [getDashboard, hc, weeklyLeadsCalc]
    omega

/-- Concrete client for the dashboard fixtures. -/
def histClient : Client :=
  { id := "C1", business_name := "Edmonton Pro HVAC", contact_name := "Mike",
    email := "mike@x.ca", phone := "780", industry := "hvac", city := "Edmonton",
    plan := "growth", plan_price := 597, status := "active",
    dashboard_token := some "tok", whop_membership_id := none,
    whop_user_id := none, updated_at := 0 }

/-- Concrete lead created 25 days before the counterexample's "now". -/
def histLead : Lead :=
  { id := "L1", client_id := some "C1", capture_page := none, name := "Sarah",
    email := none, phone := "780", service_needed := none, address := none,
    city := none, postal_code := none, message := none, source := "facebook",
    utm_source := none, utm_medium := none, utm_campaign := none,
    status := "new", contacted_at := none, booked_at := none,
    job_value := none, notes := none, created_at := 75, updated_at := 75 }

/-- Concrete store for the weekly-histogram claim: one client, one lead. -/
def stHist : ServerState :=
  ⟨[], [], [histClient], [histLead], [], [], []⟩

/-- Witness for C1's amended theorem: at `now = 80` the single lead (created
at day 75) lies inside `[now - 21, now + 7)`, the labels are W1..W4 and the
bucket counts sum to the lead count. -/
theorem dashboard_weekly_histogram_witness :
    (getDashboard "tok" 80 stHist).map (fun r => r.weeklyLeads.map Prod.fst)
      = some ["W1", "W2", "W3", "W4"]
  ∧ (getDashboard "tok" 80 stHist).map (fun r => (r.weeklyLeads.map Prod.snd).sum)
      = some (clientLeadsOf stHist histClient.id).length :=
  have h := dashboard_weekly_histogram "tok" 80 stHist histClient (by decide)
  ⟨h.1, h.2.2 (by decide)⟩

/-- C1 counterexample: at `now = 100` the client's only lead was created on
day 75 — within the 28 days preceding `now` — yet every bucket counts zero,
because the four windows cover `[now - 21, now + 7)` and the lead is older
than 21 days; the bucket sum 0 differs from the total lead count 1 that the
claim promises. -/
theorem dashboard_histogram_misses_28_day_lead :
    (getDashboard "tok" 100 stHist).map
        (fun r => ((r.weeklyLeads.map Prod.snd).sum, r.stats.totalLeads))
      = some (0, 1)
  ∧ stHist.leads.map Lead.created_at = [75]
  ∧ ((100:Int) - 28 ≤ 75 ∧ (75:Int) ≤ 100) := by
  refine ⟨by decide, by decide, by decide⟩

/-- C8: the dashboard close rate is `(booked/total*100).toFixed(1)` as a
string when the client has leads and the number 0 when it has none (no
division error); in particular 0 leads report the number 0, and 10 leads
with exactly 3 booked report exactly `"30.0"`. -/
theorem dashboard_close_rate (token : String) (now : Int) (s : ServerState)
    (client : Client)
    (hc : s.clients.find? (fun c => c.dashboard_token == some token) = some client) :
    ((clientLeadsOf s client.id).length = 0 →
      (getDashboard token now s).map (fun r => r.stats.closeRate) = some (.num 0))
  ∧ (∀ booked total : Nat,
      (clientLeadsOf s client.id).length = total → 0 < total →
      ((clientLeadsOf s client.id).filter (fun l => l.status == "booked")).length
        = booked →
      (getDashboard token now s).map (fun r => r.stats.closeRate)
        = some (.str (toFixed1 ((booked : ℚ) / (total : ℚ) * 100))))
  ∧ ((clientLeadsOf s client.id).length = 10 →
     ((clientLeadsOf s client.id).filter (fun l => l.status == "booked")).length = 3 →
      (getDashboard token now s).map (fun r => r.stats.closeRate)
        = some (.str "30.0")) := by
  have h2 : ∀ booked total : Nat,
      (clientLeadsOf s client.id).length = total → 0 < total →
      ((clientLeadsOf s client.id).filter (fun l => l.status == "booked")).length
        = booked →
      (getDashboard token now s).map (fun r => r.stats.closeRate)
        = some (.str (toFixed1 ((booked : ℚ) / (total : ℚ) * 100))) := by
    intro booked total ht hpos hb
    simp only [getDashboard, hc]
    rw [ht, hb, if_pos hpos]
    simp
  refine ⟨fun h0 => ?_, h2, fun h10 h3 => ?_⟩
  · simp [getDashboard, hc, h0]
  · have hq : (((3:Nat) : ℚ)) / (((10:Nat) : ℚ)) * 100 = 30 := by norm_num
    have hfix : toFixed1 30 = "30.0" := by
      unfold toFixed1
      norm_num
      decide
    rw [h2 3 10 h10 (by norm_num) h3, hq, hfix]

/-- Client of the 10-lead close-rate fixture. -/
def rateClient : Client :=
  { id := "C2", business_name := "Acme Roofing", contact_name := "Pat",
    email := "pat@x.ca", phone := "781", industry := "roofing", city := "Leduc",
    plan := "starter", plan_price := 397, status := "active",
    dashboard_token := some "tokR", whop_membership_id := none,
    whop_user_id := none, updated_at := 0 }

/-- Template lead for the close-rate fixture. -/
def rateLead : Lead :=
  { id := "R0", client_id := some "C2", capture_page := none, name := "N",
    email := none, phone := "0", service_needed := none, address := none,
    city := none, postal_code := none, message := none, source := "facebook",
    utm_source := none, utm_medium := none, utm_campaign := none,
    status := "new", contacted_at := none, booked_at := none,
    job_value := none, notes := none, created_at := 0, updated_at := 0 }

/-- Store with one client owning exactly 10 leads, 3 of them booked. -/
def stTen : ServerState :=
  ⟨[], [], [rateClient],
   [{ rateLead with id := "R1", status := "booked" },
    { rateLead with id := "R2", status := "booked" },
    { rateLead with id := "R3", status := "booked" },
    { rateLead with id := "R4" }, { rateLead with id := "R5" },
    { rateLead with id := "R6" }, { rateLead with id := "R7", status := "contacted" },
    { rateLead with id := "R8", status := "contacted" },
    { rateLead with id := "R9" }, { rateLead with id := "R10" }],
   [], [], []⟩

/-- Witness for C8 at concrete inputs: the empty store reports the number 0,
and the 10-lead/3-booked store reports exactly `"30.0"`. -/
theorem dashboard_close_rate_witness :
    (getDashboard "tokR" 0
        ⟨[], [], [rateClient], [], [], [], []⟩).map (fun r => r.stats.closeRate)
      = some (.num 0)
  ∧ (getDashboard "tokR" 0 stTen).map (fun r => r.stats.closeRate)
      = some (.str "30.0") :=
  ⟨(dashboard_close_rate "tokR" 0 ⟨[], [], [rateClient], [], [], [], []⟩ rateClient
      (by decide)).1 (by decide),
   (dashboard_close_rate "tokR" 0 stTen rateClient (by decide)).2.2
      (by decide) (by decide)⟩

/-! ## POST /api/capture-pages/:slug/view -/

/-- Embedding of the `POST /api/capture-pages/:slug/view` handler
(server.js:671-674): `UPDATE capture_pages SET views = views + 1 WHERE
slug = ?` — for an unknown slug the update matches zero rows — then
`{success:true}` unconditionally. -/
def viewCapturePage (slug : String) (s : ServerState) : Resp × ServerState :=
  (.ok none, { s with capture_pages := s.capture_pages.map (fun p =>
      if p.slug == slug then { p with views := p.views + 1 } else p) })

/-- C10: every view-tracking request answers `{success:true}`; the view
counter increments only rows whose slug matches, every other row is
untouched, no row is created, and when no stored page carries the slug the
whole store is unchanged. -/
theorem capture_page_view_increments_only_match (slug : String) (s : ServerState) :
    (viewCapturePage slug s).1 = .ok none
  ∧ List.Forall₂ (fun p p2 =>
      (p.slug ≠ slug → p2 = p)
      ∧ (p.slug = slug → p2 = { p with views := p.views + 1 }))
      s.capture_pages (viewCapturePage slug s).2.capture_pages
  ∧ ((∀ p ∈ s.capture_pages, p.slug ≠ slug) → (viewCapturePage slug s).2 = s) := by
  refine ⟨rfl, ?_, fun hnone => ?_⟩
  · have : (viewCapturePage slug s).2.capture_pages
        = s.capture_pages.map (fun p =>
            if p.slug == slug then { p with views := p.views + 1 } else p) := rfl
    rw [this, List.forall₂_map_right_iff, List.forall₂_same]
    intro p _
    exact ⟨fun hne => by simp [hne], fun heq => by simp [heq]⟩
  · have hmap : s.capture_pages.map (fun p =>
        if p.slug == slug then { p with views := p.views + 1 } else p)
        = s.capture_pages := by
      calc s.capture_pages.map (fun p =>
              if p.slug == slug then { p with views := p.views + 1 } else p)
          = s.capture_pages.map id :=
            List.map_congr_left (fun p hp => by simp [hnone p hp])
        _ = s.capture_pages := List.map_id s.capture_pages
    have hst : (viewCapturePage slug s).2
        = { s with capture_pages := s.capture_pages.map (fun p =>
            if p.slug == slug then { p with views := p.views + 1 } else p) } := rfl
    rw [hst, hmap]

/-- Witness for C10 at a concrete input: a store holding one page whose slug
does not match the request leaves the store unchanged, and the response is
the success envelope. -/
theorem capture_page_view_witness :
    (viewCapturePage "nope"
        ⟨[], [], [], [], [],
         [{ id := "P1", client_id := some "C1", slug := "hvac-edmonton-demo",
            title := "Edmonton HVAC", status := "active", views := 847,
            submissions := 23 }], []⟩).1 = .ok none
  ∧ (viewCapturePage "nope"
        ⟨[], [], [], [], [],
         [{ id := "P1", client_id := some "C1", slug := "hvac-edmonton-demo",
            title := "Edmonton HVAC", status := "active", views := 847,
            submissions := 23 }], []⟩).2
      = ⟨[], [], [], [], [],
         [{ id := "P1", client_id := some "C1", slug := "hvac-edmonton-demo",
            title := "Edmonton HVAC", status := "active", views := 847,
            submissions := 23 }], []⟩ :=
  have h := capture_page_view_increments_only_match "nope"
    ⟨[], [], [], [], [],
     [{ id := "P1", client_id := some "C1", slug := "hvac-edmonton-demo",
        title := "Edmonton HVAC", status := "active", views := 847,
        submissions := 23 }], []⟩
  ⟨h.1, h.2.2 (by decide)⟩

/-! ## GET /api/webhooks/facebook (Lead-Ads verification) -/

/-- The three `hub.*` query parameters of the verification GET; each is a
string when present in the query and `undefined` otherwise. -/
structure FbVerifyQuery where
  mode : Option String
  verify_token : Option String
  challenge : Option String
deriving DecidableEq

/-- Response of the verification GET: a 200 whose body is the echoed
challenge, or a bare 403 Forbidden. -/
inductive FbVerifyResp where
  | echo : String → FbVerifyResp
  | forbidden : FbVerifyResp
deriving DecidableEq

/-- Embedding of the `GET /api/webhooks/facebook` handler
(server.js:721-731): `mode === 'subscribe' && token === WEBHOOK_SECRET`
echoes the challenge with status 200 (`res.send(challenge)` sends the empty
body when the parameter is absent), anything else answers
`res.sendStatus(403)`.  The `===` comparison of the token parameter with the
environment value holds when both are the same string and also when both are
absent (`undefined === undefined`), which Option equality models exactly. -/
def fbVerify (env : Env) (q : FbVerifyQuery) : FbVerifyResp :=
  if q.mode = some "subscribe" ∧ q.verify_token = env.webhook_secret then
    .echo (q.challenge.getD "")
  else .forbidden

/-- C7: when `hub.mode` is `"subscribe"` and `hub.verify_token` equals the
configured webhook secret, the response is exactly the `hub.challenge`
value with status 200; for any other combination the response is 403
Forbidden and no challenge value is echoed. -/
theorem fb_verification_handshake (env : Env) (q : FbVerifyQuery) :
    ((q.mode = some "subscribe" ∧ q.verify_token = env.webhook_secret) →
      fbVerify env q = .echo (q.challenge.getD ""))
  ∧ (¬ (q.mode = some "subscribe" ∧ q.verify_token = env.webhook_secret) →
      fbVerify env q = .forbidden ∧ ∀ c : String, fbVerify env q ≠ .echo c) := by
  constructor
  · intro h
    simp [fbVerify, h]
  · intro h
    refine ⟨by simp [fbVerify, h], fun c => by simp [fbVerify, h]⟩

/-- Witness for C7 at concrete inputs: a matching handshake echoes the
challenge `"CH-42"`, a wrong token is answered 403. -/
theorem fb_verification_handshake_witness :
    fbVerify ⟨none, some "sec", none⟩
        ⟨some "subscribe", some "sec", some "CH-42"⟩ = .echo "CH-42"
  ∧ fbVerify ⟨none, some "sec", none⟩
        ⟨some "subscribe", some "bad", some "CH-42"⟩ = .forbidden :=
  ⟨(fb_verification_handshake ⟨none, some "sec", none⟩
      ⟨some "subscribe", some "sec", some "CH-42"⟩).1 (by decide),
   ((fb_verification_handshake ⟨none, some "sec", none⟩
      ⟨some "subscribe", some "bad", some "CH-42"⟩).2 (by decide)).1⟩

/-! ## POST /api/webhooks/whop -/

/-- The `data.user` object of a Whop webhook payload. -/
structure WhopUser where
  id : Option String
  email : Option String
  username : Option String
deriving DecidableEq

/-- The `data` object of a Whop webhook payload (only the fields the
handler reads). -/
structure WhopData where
  user : Option WhopUser
  membership : Option String
  id : Option String
deriving DecidableEq

/-- A Whop webhook delivery: the `whop-signature` header and the parsed
`{action, data}` body. -/
structure WhopReq where
  signature : Option String
  action : Option String
  data : WhopData
deriving DecidableEq

/-- Response of the Whop webhook: `{received:true}` with 200, or the 401
`{error:"Invalid signature"}` when a configured secret mismatches. -/
inductive WhopResp where
  | received : WhopResp
  | unauthorized : WhopResp
deriving DecidableEq

/-- Embedding of the `POST /api/webhooks/whop` handler (server.js:757-856).
A configured (truthy) `WHOP_WEBHOOK_SECRET` whose value differs from the
`whop-signature` header answers 401.  Otherwise the handler dispatches on
`action`; `payment.succeeded` and `membership.went_valid` set every client
whose email equals the (truthy) payload email to status `"active"` and
record `data.membership || null` (resp. `data.id || null`) and
`data.user?.id || null`; `membership.went_invalid` sets status `"churned"`;
`payment.failed` and unknown actions change no row.  Every non-401 branch
answers `{received:true}`; the notification emails (whose subjects are
abbreviated here — they never reach a table besides the email log) are sent
with transport outcome `okN`. -/
def whopWebhook (env : Env) (req : WhopReq) (logId : String) (okN : Bool)
    (now : Int) (s : ServerState) : WhopResp × ServerState :=
  if optTruthy env.whop_webhook_secret ∧ req.signature ≠ env.whop_webhook_secret then
    (.unauthorized, s)
  else
    let email := req.data.user.bind (fun u => u.email)
    if req.action = some "payment.succeeded" then
      let s1 : ServerState :=
        if optTruthy email then
          { s with clients := s.clients.map (fun c =>
              if c.email == email.getD "" then
                { c with
                  status := "active",
                  whop_membership_id := jsOrNull req.data.membership,
                  whop_user_id := jsOrNull (req.data.user.bind (fun u => u.id)),
                  updated_at := now }
              else c) }
        else s
      (.received, (sendEmail logId (notifyAddr env)
        ("New Payment from " ++ email.getD "undefined") okN s1).2)
    else if req.action = some "membership.went_valid" then
      let s1 : ServerState :=
        if optTruthy email then
          { s with clients := s.clients.map (fun c =>
              if c.email == email.getD "" then
                { c with
                  status := "active",
                  whop_membership_id := jsOrNull req.data.id,
                  whop_user_id := jsOrNull (req.data.user.bind (fun u => u.id)),
                  updated_at := now }
              else c) }
        else s
      (.received, s1)
    else if req.action = some "membership.went_invalid" then
      let s1 : ServerState :=
        if optTruthy email then
          { s with clients := s.clients.map (fun c =>
              if c.email == email.getD "" then
                { c with status := "churned", updated_at := now }
              else c) }
        else s
      (.received, (sendEmail logId (notifyAddr env)
        ("Membership Cancelled: " ++ email.getD "undefined") okN s1).2)
    else if req.action = some "payment.failed" then
      (.received, (sendEmail logId (notifyAddr env)
        ("Payment Failed: " ++ email.getD "undefined") okN s).2)
    else (.received, s)

/-- C6: an authorized `payment.succeeded` delivery answers `{received:true}`;
when the payload carries a (non-empty) user email, every client row with
that email gets status `"active"` and the payload's membership and user
identifiers recorded while all other client rows are untouched; when the
payload email is absent or empty, or no client has that email, no client
row is modified. -/
theorem whop_payment_succeeded_updates_client (env : Env) (req : WhopReq)
    (logId : String) (okN : Bool) (now : Int) (s : ServerState)
    (hauth : ¬ (optTruthy env.whop_webhook_secret
      ∧ req.signature ≠ env.whop_webhook_secret))
    (haction : req.action = some "payment.succeeded") :
    (whopWebhook env req logId okN now s).1 = .received
  ∧ (∀ e : String, req.data.user.bind (fun u => u.email) = some e → e ≠ "" →
      List.Forall₂ (fun c c2 =>
        (c.email ≠ e → c2 = c)
        ∧ (c.email = e →
            c2.status = "active"
          ∧ c2.whop_membership_id = jsOrNull req.data.membership
          ∧ c2.whop_user_id = jsOrNull (req.data.user.bind (fun u => u.id))
          ∧ c2.updated_at = now
          ∧ c2.id = c.id ∧ c2.email = c.email
          ∧ c2.business_name = c.business_name
          ∧ c2.contact_name = c.contact_name ∧ c2.phone = c.phone
          ∧ c2.industry = c.industry ∧ c2.city = c.city ∧ c2.plan = c.plan
          ∧ c2.plan_price = c.plan_price
          ∧ c2.dashboard_token = c.dashboard_token))
        s.clients (whopWebhook env req logId okN now s).2.clients)
  ∧ (¬ optTruthy (req.data.user.bind (fun u => u.email)) = true →
      (whopWebhook env req logId okN now s).2.clients = s.clients)
  ∧ (∀ e : String, req.data.user.bind (fun u => u.email) = some e →
      (∀ c ∈ s.clients, c.email ≠ e) →
      (whopWebhook env req logId okN now s).2.clients = s.clients) := by
  have hsendcl : ∀ (lid a subj : String) (ok : Bool) (st : ServerState),
      (sendEmail lid a subj ok st).2.clients = st.clients := by
    intro lid a subj ok st
    cases ok <;> simp [sendEmail]
  have hresp : (whopWebhook env req logId okN now s).1 = .received := by
    simp only [whopWebhook]
    rw [if_neg hauth, if_pos haction]
  have hstep : (whopWebhook env req logId okN now s).2.clients
      = (if optTruthy (req.data.user.bind (fun u => u.email)) then
          { s with clients := s.clients.map (fun c =>
              if c.email == (req.data.user.bind (fun u => u.email)).getD "" then
                { c with
                  status := "active",
                  whop_membership_id := jsOrNull req.data.membership,
                  whop_user_id := jsOrNull (req.data.user.bind (fun u => u.id)),
                  updated_at := now }
              else c) }
        else s).clients := by
    simp only [whopWebhook]
    rw [if_neg hauth, if_pos haction]
    exact hsendcl _ _ _ _ _
  refine ⟨hresp, ?_, ?_, ?_⟩
  · intro e he hne
    have hcl : (whopWebhook env req logId okN now s).2.clients
        = s.clients.map (fun c =>
            if c.email == e then
              { c with
                status := "active",
                whop_membership_id := jsOrNull req.data.membership,
                whop_user_id := jsOrNull (req.data.user.bind (fun u => u.id)),
                updated_at := now }
            else c) := by
      rw [hstep, he]
      simp [optTruthy, hne]
    rw [hcl, List.forall₂_map_right_iff, List.forall₂_same]
    intro c _
    constructor
    · intro hne2
      simp [hne2]
    · intro heq
      simp [heq]
  · intro hfalsy
    rw [Bool.not_eq_true] at hfalsy
    rw [hstep, hfalsy]
    simp
  · intro e he hnone
    by_cases hne : e = ""
    · subst hne
      rw [hstep, he]
      simp [optTruthy]
    · rw [hstep, he]
      have hot : optTruthy (some e) = true := by simp [optTruthy, hne]
      rw [hot]
      simp only [if_true]
      refine Eq.trans ?_ (List.map_id s.clients)
      exact List.map_congr_left (fun c hc => by simp [hnone c hc])

/-- Fixture client for the Whop witness. -/
def whopClient : Client :=
  { id := "C3", business_name := "Pay Co", contact_name := "Jo",
    email := "pay@x.ca", phone := "782", industry := "hvac", city := "Leduc",
    plan := "starter", plan_price := 397, status := "trial",
    dashboard_token := none, whop_membership_id := none,
    whop_user_id := none, updated_at := 0 }

/-- Fixture delivery for the Whop witness: an unsigned `payment.succeeded`
for `pay@x.ca` carrying membership `mem_1` and user id `U9`. -/
def whopReqFix : WhopReq :=
  { signature := none, action := some "payment.succeeded",
    data := { user := some { id := some "U9", email := some "pay@x.ca",
                             username := none },
              membership := some "mem_1", id := none } }

/-- Witness for C6 at a concrete input: the matching client turns
`"active"` with the identifiers recorded. -/
theorem whop_payment_succeeded_witness :
    (whopWebhook ⟨none, none, none⟩ whopReqFix "g1" true 9
        ⟨[], [], [whopClient], [], [], [], []⟩).1 = .received
  ∧ List.Forall₂ (fun c c2 =>
      (c.email ≠ "pay@x.ca" → c2 = c)
      ∧ (c.email = "pay@x.ca" →
          c2.status = "active"
        ∧ c2.whop_membership_id = jsOrNull whopReqFix.data.membership
        ∧ c2.whop_user_id
            = jsOrNull (whopReqFix.data.user.bind (fun u => u.id))
        ∧ c2.updated_at = 9
        ∧ c2.id = c.id ∧ c2.email = c.email
        ∧ c2.business_name = c.business_name
        ∧ c2.contact_name = c.contact_name ∧ c2.phone = c.phone
        ∧ c2.industry = c.industry ∧ c2.city = c.city ∧ c2.plan = c.plan
        ∧ c2.plan_price = c.plan_price
        ∧ c2.dashboard_token = c.dashboard_token))
      [whopClient]
      (whopWebhook ⟨none, none, none⟩ whopReqFix "g1" true 9
        ⟨[], [], [whopClient], [], [], [], []⟩).2.clients :=
  have h := whop_payment_succeeded_updates_client ⟨none, none, none⟩ whopReqFix
    "g1" true 9 ⟨[], [], [whopClient], [], [], [], []⟩ (by decide) rfl
  ⟨h.1, h.2.1 "pay@x.ca" rfl (by decide)⟩

end LeadFlow
